import Mathlib

/-!
Shallow embedding of `sqlakeyset/nulls.py`: NULL-sorting policy, nullability
advisor and comparator-term builder for keyset pagination.

Python objects are modelled as Lean structures; an attribute that may be
absent (raising `AttributeError` on access) is an `Option` field. SQL
expressions produced by the builder (`case`, `cast`) are modelled
symbolically by the inductive `Term`. The `warnings.warn` call is modelled
by counting emitted warnings in the return value, so warning emission is
observable; a Python exception escaping a function is an `Except.error`.
-/

/-- A SQLAlchemy dialect object: all that `nulls.py` reads from it is the
`name` attribute. -/
structure Dialect where
  name : String
deriving DecidableEq, Repr

/-- The only exception `nulls.py` itself can raise:
`AttributeError` (attribute access on `None`). -/
inductive PyError where
  | attributeError
deriving DecidableEq, Repr

/-- `NULLS_LAST_FOR_ASC_BY_DEFAULT`: the static engine table of
`nulls.py`, as an association list. -/
def NULLS_LAST_FOR_ASC_BY_DEFAULT : List (String × Bool) :=
  [("postgresql", true),
   ("oracle", true),
   ("mysql", false),
   ("mssql", false),
   ("sqlite", false)]

/-- Python `dict.get` on the engine table, where the looked-up key may be
`None` (never present in the table). -/
def dictGet (tbl : List (String × Bool)) : Option String → Option Bool
  | none => none
  | some k => tbl.lookup k

/-- The key expression `dialect and dialect.name or None`: `None` when the
dialect is absent or its name is falsy (empty string), else the name. -/
def dialectKey : Option Dialect → Option String
  | none => none
  | some d => if d.name = "" then none else some d.name

/-- `is_nulls_last_default(dialect=None)`. Returns the policy boolean
together with the number of warnings emitted. When the table lookup misses
and `dialect` is `None`, formatting the warning message evaluates
`dialect.name`, which raises `AttributeError`. -/
def is_nulls_last_default (dialect : Option Dialect) :
    Except PyError (Bool × Nat) :=
  match dictGet NULLS_LAST_FOR_ASC_BY_DEFAULT (dialectKey dialect) with
  | some v => Except.ok (v, 0)
  | none =>
    match dialect with
    | none => Except.error PyError.attributeError
    | some _ => Except.ok (false, 1)

/-- A column's SQLAlchemy type object: `build_comparison` reads the
optional `process_bind_param` attribute from it (absence raises
`AttributeError`, which the source catches and replaces by the identity
processor). The processor receives the comparison value and the dialect. -/
structure ColumnType (V : Type) where
  process_bind_param : Option (Option V → Option Dialect → Option V)

/-- A column expression: an identity for the underlying SQL expression plus
its type object. -/
structure ColumnExpr (V : Type) where
  id : Nat
  type : ColumnType V

/-- The `try/except AttributeError` block of `build_comparison`: the
column type's bind processor when present, else the identity
`lambda v, d: v`, applied to the value and dialect. -/
def applyBindProcessor (c : ColumnExpr V) (v : Option V)
    (d : Option Dialect) : Option V :=
  match c.type.process_bind_param with
  | some p => p v d
  | none => v

/-- A comparator term, symbolically. `caseFlag c n nn` is
`case([(c == None, n)], else_=nn)`; `caseVal c` is
`case([(c == None, cast('0', c.type))], else_=c)`; `blank c` is the
placeholder `cast('0', c.type)`; `lit`/`value` are the Python-side flag
integer and comparison value. -/
inductive Term (V : Type) where
  | caseFlag (col : Nat) (nullRank : Nat) (notnullRank : Nat)
  | caseVal (col : Nat)
  | lit (n : Nat)
  | blank (col : Nat)
  | value (v : V)
deriving DecidableEq, Repr

/-- `null, notnull = (1, 0) if nullslast else (0, 1)`. -/
def discPair (nullslast : Bool) : Nat × Nat :=
  if nullslast then (1, 0) else (0, 1)

/-- Resolution of the effective nulls-last boolean in `build_comparison`:
the explicit `nullslast` argument when supplied, else the policy lookup
(possibly warning or raising). -/
def resolvedNullsLast (dialect : Option Dialect)
    (nullslast : Option Bool) : Except PyError (Bool × Nat) :=
  match nullslast with
  | some b => Except.ok (b, 0)
  | none => is_nulls_last_default dialect

/-- `build_comparison(columnexpr, value, dialect, nullslast=None,
ascending=True)`. Returns the `(col, val)` pair of term lists together
with the number of warnings emitted, or the propagated exception. -/
def build_comparison (columnexpr : ColumnExpr V) (value : Option V)
    (dialect : Option Dialect) (nullslast : Option Bool)
    (ascending : Bool) :
    Except PyError ((List (Term V) × List (Term V)) × Nat) :=
  match resolvedNullsLast dialect nullslast with
  | Except.error e => Except.error e
  | Except.ok (nl, warns) =>
    let v := applyBindProcessor columnexpr value dialect
    let np := discPair nl
    let flag_col := Term.caseFlag columnexpr.id np.1 np.2
    let flag_val := Term.lit (match v with
      | none => np.1
      | some _ => np.2)
    let val_col := Term.caseVal columnexpr.id
    let val_val := match v with
      | none => Term.blank columnexpr.id
      | some x => Term.value x
    let col := [flag_col, val_col]
    let val := [flag_val, val_val]
    let r := if ascending then (col, val) else (val, col)
    Except.ok (r, warns)

/-- The pair of terms playing the row-side role in the result of
`build_comparison`: the first component when ascending, else the second
(the source swaps the pairs for descending columns). -/
def rowPair (r : List (Term V) × List (Term V)) (ascending : Bool) :
    List (Term V) :=
  if ascending then r.1 else r.2

/-- The pair of terms playing the seek-target role in the result of
`build_comparison`: the second component when ascending, else the first. -/
def targetPair (r : List (Term V) × List (Term V)) (ascending : Bool) :
    List (Term V) :=
  if ascending then r.2 else r.1

/-- The bound column object reachable as `x.property.columns[0]` from a
descriptor; `nulls.py` reads its optional `nullable` attribute. -/
structure BoundColumn where
  nullable : Option Bool

/-- The `property` attribute of a descriptor, exposing an optional
`columns` sequence. -/
structure ColProperty where
  columns : Option (List BoundColumn)

/-- A column descriptor as inspected by `_might_be_nullable`: both the
direct `nullable` attribute and the `property` attribute may be absent. -/
structure Descriptor where
  nullable : Option Bool
  property : Option ColProperty

/-- `_might_be_nullable(x)`: evaluates
`if not x.nullable or x.property.columns[0].nullable: return True` under a
`try` swallowing `AttributeError`/`IndexError`/`KeyError`, falling through
to `return False` both after the swallowed exception and when the
condition is falsy. -/
def _might_be_nullable (x : Descriptor) : Bool :=
  match x.nullable with
  | none => false
  | some xn =>
    if !xn then true
    else
      match x.property with
      | none => false
      | some p =>
        match p.columns with
        | none => false
        | some cols =>
          match cols.head? with
          | none => false
          | some c0 =>
            match c0.nullable with
            | none => false
            | some cn => if cn then true else false

/-- C1: for every known engine identifier the policy lookup returns
exactly the documented boolean: postgresql and oracle map to true
(NULLS LAST on ascending); mysql, mssql and sqlite map to false
(NULLS FIRST on ascending) — both in the raw table and through
`is_nulls_last_default`, which then emits no warning. -/
theorem known_engine_policy_exact :
    dictGet NULLS_LAST_FOR_ASC_BY_DEFAULT (some "postgresql") = some true ∧
    dictGet NULLS_LAST_FOR_ASC_BY_DEFAULT (some "oracle") = some true ∧
    dictGet NULLS_LAST_FOR_ASC_BY_DEFAULT (some "mysql") = some false ∧
    dictGet NULLS_LAST_FOR_ASC_BY_DEFAULT (some "mssql") = some false ∧
    dictGet NULLS_LAST_FOR_ASC_BY_DEFAULT (some "sqlite") = some false ∧
    is_nulls_last_default (some (Dialect.mk "postgresql")) = Except.ok (true, 0) ∧
    is_nulls_last_default (some (Dialect.mk "oracle")) = Except.ok (true, 0) ∧
    is_nulls_last_default (some (Dialect.mk "mysql")) = Except.ok (false, 0) ∧
    is_nulls_last_default (some (Dialect.mk "mssql")) = Except.ok (false, 0) ∧
    is_nulls_last_default (some (Dialect.mk "sqlite")) = Except.ok (false, 0) :=
  ⟨rfl, rfl, rfl, rfl, rfl, rfl, rfl, rfl, rfl, rfl⟩

/-- C2: for every dialect object whose name is not in the known-engine
table, `is_nulls_last_default` returns `false`, emits exactly one warning,
and does not raise. -/
theorem unknown_engine_false_one_warning (d : Dialect)
    (h : NULLS_LAST_FOR_ASC_BY_DEFAULT.lookup d.name = none) :
    is_nulls_last_default (some d) = Except.ok (false, 1) := by
  unfold is_nulls_last_default dialectKey dictGet
  by_cases he : d.name = ""
  · simp [he]
  · simp [he, h]

/-- Witness for C2 at the concrete unknown engine name
`made_up_engine`. -/
theorem unknown_engine_false_one_warning_witness :
    is_nulls_last_default (some (Dialect.mk "made_up_engine")) =
      Except.ok (false, 1) :=
  unknown_engine_false_one_warning (Dialect.mk "made_up_engine") rfl

/-- C3 (the code diverges from the claim): when the dialect argument is
absent, the table lookup misses, and formatting the warning message
evaluates `dialect.name` on `None`, so the call raises `AttributeError`
instead of returning `false` with a warning. -/
theorem absent_dialect_raises :
    is_nulls_last_default none = Except.error PyError.attributeError :=
  rfl

/-- C4 (the code diverges from the claim): on a descriptor lacking any
nullability attribute, `_might_be_nullable` swallows the
`AttributeError` and returns `false`, not `true`; likewise when the
`property` chain is missing or empty. Moreover the condition is inverted:
a descriptor declared NOT nullable yields `true` while one declared
nullable (with no property attribute) yields `false`. -/
theorem might_be_nullable_missing_metadata_false :
    _might_be_nullable (Descriptor.mk none none) = false ∧
    _might_be_nullable (Descriptor.mk (some true) none) = false ∧
    _might_be_nullable (Descriptor.mk (some true) (some (ColProperty.mk none))) = false ∧
    _might_be_nullable (Descriptor.mk (some true) (some (ColProperty.mk (some [])))) = false ∧
    _might_be_nullable (Descriptor.mk (some false) none) = true :=
  ⟨rfl, rfl, rfl, rfl, rfl⟩

/-- C5: for every input with an explicitly resolved nulls-last boolean,
the discriminator pair used in the flag terms is `(1, 0)` when nulls-last
is true and `(0, 1)` when it is false, and the row-side flag term is the
same for both sort directions — the ranks depend only on the resolved
null placement, never on `ascending`. -/
theorem discriminator_ranks_direction_free :
    ∀ (V : Type) (c : ColumnExpr V) (v : Option V) (d : Option Dialect)
      (nl asc : Bool),
    ∃ out, build_comparison c v d (some nl) asc = Except.ok out ∧
      (rowPair out.1 asc).head? =
        some (Term.caseFlag c.id (if nl then 1 else 0)
          (if nl then 0 else 1)) := by
  intro V c v d nl asc
  cases nl <;> cases asc <;> exact ⟨_, rfl, rfl⟩

/-- C6: for fixed column, value, dialect and null-placement argument, the
result of `build_comparison` with `ascending = false` is the result with
`ascending = true` with the two output pairs exchanged wholesale (and the
same warnings or exception). -/
theorem direction_swap_law :
    ∀ (V : Type) (c : ColumnExpr V) (v : Option V) (d : Option Dialect)
      (nlopt : Option Bool),
    build_comparison c v d nlopt false =
      Except.map (fun r => ((r.1.2, r.1.1), r.2))
        (build_comparison c v d nlopt true) := by
  intro V c v d nlopt
  unfold build_comparison
  rcases resolvedNullsLast d nlopt with e | ⟨nl, w⟩ <;> rfl

/-- C7 counterexample: a column type whose bind processor maps a null
input to the non-null value `0`. With `referenceValue = None` (engine
postgresql, so nullRank = 1), the target-side pair is
`[lit 0, value 0]` — discriminator `nonNullRank`, value not the
placeholder — refuting the claim that a null reference value always
yields `[lit nullRank, blank]` on the target side. -/
theorem null_reference_not_placeholder_cex :
    build_comparison
        (ColumnExpr.mk 0 (ColumnType.mk (some (fun _ _ => some (0 : Int)))))
        none (some (Dialect.mk "postgresql")) none true =
      Except.ok (([Term.caseFlag 0 1 0, Term.caseVal 0],
                  [Term.lit 0, Term.value 0]), 0) ∧
    ([Term.lit 0, Term.value (0 : Int)] ≠
      [Term.lit 1, Term.blank 0]) :=
  ⟨rfl, by decide⟩

/-- C7 amended: whenever the canonicalized reference value — the result
of the column type's bind processor — is null, the target-side pair is
`[lit nullRank, blank]`: its discriminator is the null rank of the
resolved placement and its value term is the column's non-null
placeholder. -/
theorem null_processed_value_placeholder
    (V : Type) (c : ColumnExpr V) (v : Option V) (d : Option Dialect)
    (nlopt : Option Bool) (asc nl : Bool) (w : Nat)
    (hres : resolvedNullsLast d nlopt = Except.ok (nl, w))
    (hnull : applyBindProcessor c v d = none) :
    ∃ pair, build_comparison c v d nlopt asc = Except.ok (pair, w) ∧
      targetPair pair asc =
        [Term.lit (discPair nl).1, Term.blank c.id] := by
  unfold build_comparison
  rw [hres]
  refine ⟨_, rfl, ?_⟩
  rw [hnull]
  cases asc <;> rfl

/-- Witness for C7's amended theorem: a plain integer column (no bind
processor), null reference value, postgresql dialect, ascending. -/
theorem null_processed_value_placeholder_witness :
    resolvedNullsLast (some (Dialect.mk "postgresql")) none =
        Except.ok (true, 0) ∧
    applyBindProcessor (ColumnExpr.mk 0 (ColumnType.mk none))
        (none : Option Int) (some (Dialect.mk "postgresql")) = none ∧
    ∃ pair, build_comparison (ColumnExpr.mk 0 (ColumnType.mk none))
        (none : Option Int) (some (Dialect.mk "postgresql")) none true =
        Except.ok (pair, 0) ∧
      targetPair pair true =
        [Term.lit (discPair true).1, Term.blank 0] :=
  ⟨rfl, rfl,
    null_processed_value_placeholder Int (ColumnExpr.mk 0 (ColumnType.mk none))
      none (some (Dialect.mk "postgresql")) none true true 0 rfl rfl⟩

/-- C8: the builder is deterministic — two calls with equal column
expression, reference value, dialect, explicit null placement and
direction return equal results (the embedding is a pure function and the
source keeps no hidden state; even warning emission is equal). -/
theorem build_comparison_deterministic
    (V : Type) (c1 c2 : ColumnExpr V) (v1 v2 : Option V)
    (d1 d2 : Option Dialect) (nl1 nl2 : Option Bool) (a1 a2 : Bool)
    (hc : c1 = c2) (hv : v1 = v2) (hd : d1 = d2) (hnl : nl1 = nl2)
    (ha : a1 = a2) :
    build_comparison c1 v1 d1 nl1 a1 = build_comparison c2 v2 d2 nl2 a2 := by
  rw [hc, hv, hd, hnl, ha]

/-- Witness for C8 at a concrete call (mysql, value 42, ascending). -/
theorem build_comparison_deterministic_witness :
    build_comparison (ColumnExpr.mk 1 (ColumnType.mk none))
        (some (42 : Int)) (some (Dialect.mk "mysql")) none true =
      build_comparison (ColumnExpr.mk 1 (ColumnType.mk none))
        (some (42 : Int)) (some (Dialect.mk "mysql")) none true :=
  build_comparison_deterministic Int
    (ColumnExpr.mk 1 (ColumnType.mk none)) (ColumnExpr.mk 1 (ColumnType.mk none))
    (some 42) (some 42) (some (Dialect.mk "mysql")) (some (Dialect.mk "mysql"))
    none none true true rfl rfl rfl rfl rfl

/-- C9: when the explicit nulls-last override is supplied, the engine
lookup is never consulted: the resolved boolean is exactly the override
with zero warnings, and `build_comparison` succeeds with zero warnings —
for every dialect argument, including an absent or unrecognized one. -/
theorem explicit_nullslast_skips_engine :
    ∀ (V : Type) (c : ColumnExpr V) (v : Option V) (d : Option Dialect)
      (nl asc : Bool),
    resolvedNullsLast d (some nl) = Except.ok (nl, 0) ∧
    ∃ pair, build_comparison c v d (some nl) asc = Except.ok (pair, 0) := by
  intro V c v d nl asc
  exact ⟨rfl, _, rfl⟩

/-- C10: the null-vs-non-null decision for the target-side terms is made
on the bind-processed reference value: the target-side discriminator is
`lit nullRank` exactly when the processor output is null; consequently a
custom type whose processor maps a null input to non-null `0` produces
discriminator `nonNullRank` for a null reference value. -/
theorem null_check_after_canonicalization :
    (∀ (V : Type) (c : ColumnExpr V) (v : Option V) (d : Option Dialect)
       (nl asc : Bool),
     ∃ pair, build_comparison c v d (some nl) asc = Except.ok (pair, 0) ∧
       (targetPair pair asc).head? = some (Term.lit
         (match applyBindProcessor c v d with
          | none => (discPair nl).1
          | some _ => (discPair nl).2))) ∧
    (∃ pair, build_comparison
        (ColumnExpr.mk 0 (ColumnType.mk (some (fun _ _ => some (0 : Int)))))
        none (some (Dialect.mk "postgresql")) none true =
        Except.ok (pair, 0) ∧
      (targetPair pair true).head? =
        some (Term.lit (discPair true).2)) := by
  constructor
  · intro V c v d nl asc
    refine ⟨_, rfl, ?_⟩
    cases applyBindProcessor c v d <;> cases asc <;> rfl
  · exact ⟨_, rfl, rfl⟩
